import Mathlib

/- Shallow embedding of the RLRacing repository core: the procedural track
generator (src/game/track_generator.py) and the car physics simulator
(src/car.py).  Python floats are modelled as real numbers. -/

namespace RLRacing

/-- A 2D point, modelling a Python `(x, y)` pair of floats. -/
abbrev Point : Type := ℝ × ℝ

/-- Deterministic model of Python `random.Random`: a congruential state
machine.  `random.Random(seed)` is a deterministic function of `seed`; only
that determinism is relevant to the embedded claims, not the exact
distribution of the stdlib generator. -/
structure PyRng where
  state : ℕ

/-- Modulus of the modelled pseudo-random state. -/
def rngM : ℕ := 2 ^ 32

/-- Advance the modelled pseudo-random state. -/
def rngStep (r : PyRng) : PyRng :=
  ⟨(1664525 * r.state + 1013904223) % rngM⟩

/-- Model of `rng.uniform(lo, hi)`: a value in `[lo, hi]` determined by the
state, together with the advanced state. -/
noncomputable def rngUniform (r : PyRng) (lo hi : ℝ) : ℝ × PyRng :=
  let r2 := rngStep r
  (lo + (hi - lo) * (r2.state : ℝ) / (rngM : ℝ), r2)

/-- Model of `random.Random(seed)`: the initial state determined by the seed. -/
def pyRandom (seed : ℤ) : PyRng :=
  ⟨seed.natAbs % rngM⟩

/-- The noisy ring of control points (`generate_track` step 1), threading the
rng state through the loop in source order: angle perturbation first, then
radius factor. -/
noncomputable def mkControlsFrom (n : ℕ) : List ℕ → PyRng → List Point × PyRng
  | [], r => ([], r)
  | i :: rest, r =>
      let u1 := rngUniform r (-0.18) 0.18
      let a := 2 * Real.pi * (i : ℝ) / (n : ℝ) + u1.1
      let u2 := rngUniform u1.2 0.80 1.20
      let rad := 260 * u2.1
      let p : Point := (600 + rad * Real.cos a, 400 + rad * Real.sin a)
      let tail2 := mkControlsFrom n rest u2.2
      (p :: tail2.1, tail2.2)

/-- All `n_ctrl` control points from an initial rng state. -/
noncomputable def mkControls (n : ℕ) (r : PyRng) : List Point × PyRng :=
  mkControlsFrom n (List.range n) r

/-- One pass of Chaikin corner cutting on a closed loop (`_chaikin_loop`
body). -/
noncomputable def chaikinOnce (pts : List Point) : List Point :=
  ((List.range pts.length).map (fun i =>
    let p0 := pts.getD i (0, 0)
    let p1 := pts.getD ((i + 1) % pts.length) (0, 0)
    [((0.75 * p0.1 + 0.25 * p1.1, 0.75 * p0.2 + 0.25 * p1.2) : Point),
     ((0.25 * p0.1 + 0.75 * p1.1, 0.25 * p0.2 + 0.75 * p1.2) : Point)])).flatten

/-- `_chaikin_loop pts iters`. -/
noncomputable def chaikinLoop (pts : List Point) : ℕ → List Point
  | 0 => pts
  | k + 1 => chaikinLoop (chaikinOnce pts) k

/-- One Catmull-Rom sample (`_catmull_rom_loop` inner computation). -/
noncomputable def catmullPoint (p0 p1 p2 p3 : Point) (t : ℝ) : Point :=
  let t2 := t * t
  let t3 := t2 * t
  (0.5 * ((2 * p1.1) + (-p0.1 + p2.1) * t
      + (2 * p0.1 - 5 * p1.1 + 4 * p2.1 - p3.1) * t2
      + (-p0.1 + 3 * p1.1 - 3 * p2.1 + p3.1) * t3),
   0.5 * ((2 * p1.2) + (-p0.2 + p2.2) * t
      + (2 * p0.2 - 5 * p1.2 + 4 * p2.2 - p3.2) * t2
      + (-p0.2 + 3 * p1.2 - 3 * p2.2 + p3.2) * t3))

/-- `_catmull_rom_loop controls samples`. -/
noncomputable def catmullRomLoop (controls : List Point) (samples : ℕ) : List Point :=
  let n := controls.length
  let seg := max 6 (samples / n)
  ((List.range n).map (fun i =>
    let p0 := controls.getD ((i + n - 1) % n) (0, 0)
    let p1 := controls.getD (i % n) (0, 0)
    let p2 := controls.getD ((i + 1) % n) (0, 0)
    let p3 := controls.getD ((i + 2) % n) (0, 0)
    (List.range seg).map (fun k => catmullPoint p0 p1 p2 p3 ((k : ℝ) / (seg : ℝ))))).flatten

/-- Python `(i - 1) % n` for `0 ≤ i < n` on a closed loop. -/
def prevIdx (n i : ℕ) : ℕ := (i + n - 1) % n

/-- Python `(i + 1) % n` on a closed loop. -/
def nextIdx (n i : ℕ) : ℕ := (i + 1) % n

/-- The chord `p_next - p_prev` used as tangent estimate in
`_offset_boundaries`. -/
noncomputable def tangentChord (center : List Point) (i : ℕ) : Point :=
  let n := center.length
  let pPrev := center.getD (prevIdx n i) (0, 0)
  let pNext := center.getD (nextIdx n i) (0, 0)
  (pNext.1 - pPrev.1, pNext.2 - pPrev.2)

/-- Python `L = sqrt(tx*tx + ty*ty) or 1.0`: the chord length, with an exact
zero replaced by 1. -/
noncomputable def chordLen (center : List Point) (i : ℕ) : ℝ :=
  let t := tangentChord center i
  let L := Real.sqrt (t.1 * t.1 + t.2 * t.2)
  if L = 0 then 1 else L

/-- The left-hand normal `(-ty, tx)` of the normalised tangent. -/
noncomputable def unitNormal (center : List Point) (i : ℕ) : Point :=
  let t := tangentChord center i
  let L := chordLen center i
  (-(t.2 / L), t.1 / L)

/-- The turn angle `theta = acos(clamped cosine)` between the incoming and
outgoing edge vectors at centerline point `i` (`_offset_boundaries`). -/
noncomputable def turnAngle (center : List Point) (i : ℕ) : ℝ :=
  let n := center.length
  let pPrev := center.getD (prevIdx n i) (0, 0)
  let p := center.getD i (0, 0)
  let pNext := center.getD (nextIdx n i) (0, 0)
  let v1 : Point := (p.1 - pPrev.1, p.2 - pPrev.2)
  let v2 : Point := (pNext.1 - p.1, pNext.2 - p.2)
  let l1 := Real.sqrt (v1.1 * v1.1 + v1.2 * v1.2)
  let l2 := Real.sqrt (v2.1 * v2.1 + v2.2 * v2.2)
  let d1 := if l1 = 0 then 1 else l1
  let d2 := if l2 = 0 then 1 else l2
  let c := max (-1) (min 1 ((v1.1 * v2.1 + v1.2 * v2.2) / (d1 * d2)))
  Real.arccos c

/-- The pinch factor computed by `_offset_boundaries`:
`max(0.40, 1 - min(0.45, curv_norm * 1.2 * width_scale))`. -/
noncomputable def pinchFactor (center : List Point) (w : ℝ) (i : ℕ) : ℝ :=
  let curvNorm := turnAngle center i / Real.pi
  let widthScale := min 1 (w / 60)
  let pinchAmount := min 0.45 (curvNorm * 1.2 * widthScale)
  max 0.40 (1 - pinchAmount)

/-- The inner boundary point at index `i` (`_offset_boundaries`). -/
noncomputable def innerPoint (center : List Point) (w : ℝ) (i : ℕ) : Point :=
  let p := center.getD i (0, 0)
  let nv := unitNormal center i
  (p.1 - nv.1 * (w / 2) * pinchFactor center w i,
   p.2 - nv.2 * (w / 2) * pinchFactor center w i)

/-- The outer boundary point at index `i` (`_offset_boundaries`). -/
noncomputable def outerPoint (center : List Point) (w : ℝ) (i : ℕ) : Point :=
  let p := center.getD i (0, 0)
  let nv := unitNormal center i
  (p.1 + nv.1 * (w / 2) * pinchFactor center w i,
   p.2 + nv.2 * (w / 2) * pinchFactor center w i)

/-- `_offset_boundaries center width`: the inner and outer boundary lists. -/
noncomputable def offsetBoundaries (center : List Point) (w : ℝ) :
    List Point × List Point :=
  ((List.range center.length).map (innerPoint center w),
   (List.range center.length).map (outerPoint center w))

/-- `_point_in_polygon`: the ray-casting parity test, with the source's
`1e-12` guard in the denominator. -/
noncomputable def pointInPolygon (pt : Point) (poly : List Point) : Bool :=
  let n := poly.length
  (List.range n).foldl (fun inside i =>
    let p1 := poly.getD i (0, 0)
    let p2 := poly.getD ((i + 1) % n) (0, 0)
    if (¬ ((p1.2 > pt.2) ↔ (p2.2 > pt.2))) ∧
        pt.1 < (p2.1 - p1.1) * (pt.2 - p1.2) / ((p2.2 - p1.2) + 1 / 1000000000000) + p1.1
    then !inside else inside) false

/-- The indices `range(0, n, step)` sampled by the orientation check. -/
def strideIdxs (n step : ℕ) : List ℕ :=
  (List.range n).filter (fun i => i % step = 0)

/-- The post-generation orientation check of `generate_track` (lines 80-84):
when some sampled inner point is outside the outer polygon, swap the two
boundaries. -/
noncomputable def sanitizeBoundaries (inner outer : List Point) :
    List Point × List Point :=
  if inner ≠ [] ∧ outer ≠ [] then
    let step := max 1 (inner.length / 12)
    if (strideIdxs inner.length step).any
        (fun i => ! pointInPolygon (inner.getD i (0, 0)) outer)
    then (outer, inner) else (inner, outer)
  else (inner, outer)

/-- One racing-line point (`_racing_line` body). -/
noncomputable def racingLinePoint (center inner outer : List Point) (i : ℕ) : Point :=
  let n := center.length
  let p0 := center.getD (prevIdx n i) (0, 0)
  let p1 := center.getD i (0, 0)
  let p2 := center.getD (nextIdx n i) (0, 0)
  let v1 : Point := (p1.1 - p0.1, p1.2 - p0.2)
  let v2 : Point := (p2.1 - p1.1, p2.2 - p1.2)
  let l1 := Real.sqrt (v1.1 * v1.1 + v1.2 * v1.2)
  let l2 := Real.sqrt (v2.1 * v2.1 + v2.2 * v2.2)
  let d1 := if l1 = 0 then 1 else l1
  let d2 := if l2 = 0 then 1 else l2
  let curv := (v1.1 * v2.2 - v1.2 * v2.1) / (d1 * d2)
  let bias := min 0.6 (|curv| * 8)
  let target := if curv > 0 then inner.getD i (0, 0) else outer.getD i (0, 0)
  (p1.1 + (target.1 - p1.1) * bias, p1.2 + (target.2 - p1.2) * bias)

/-- `_racing_line center inner outer`. -/
noncomputable def racingLine (center inner outer : List Point) : List Point :=
  (List.range center.length).map (racingLinePoint center inner outer)

/-- A checkpoint record. -/
structure Checkpoint where
  position : Point
  direction : Point
  index : ℕ
  passed : Bool

/-- `_checkpoints center n_ck`. -/
noncomputable def mkCheckpoints (center : List Point) (nCk : ℕ) : List Checkpoint :=
  let step := center.length / nCk
  (List.range nCk).map (fun i =>
    let idx := (i * step) % center.length
    let nxt := (idx + 1) % center.length
    { position := center.getD idx (0, 0),
      direction := ((center.getD nxt (0, 0)).1 - (center.getD idx (0, 0)).1,
                    (center.getD nxt (0, 0)).2 - (center.getD idx (0, 0)).2),
      index := i,
      passed := false })

/-- `math.atan2 y x`, via the complex argument function. -/
noncomputable def atan2 (y x : ℝ) : ℝ := Complex.arg ⟨x, y⟩

/-- The track descriptor returned by `generate_track`. -/
structure TrackData where
  centerline : List Point
  inner_boundary : List Point
  outer_boundary : List Point
  racing_line : List Point
  checkpoints : List Checkpoint
  start_pos : Point
  start_angle : ℝ
  width : ℝ
  seed : Option ℤ
  intended_weather : String

/-- The generator's failure mode: the weather-tag contract violation. -/
inductive GenError where
  | invalidArgument

/-- `n_ctrl = max(6, complexity)`. -/
def nCtrl (complexity : ℤ) : ℕ := (max 6 complexity).toNat

/-- The Chaikin iteration count chosen from complexity (lines 57-61). -/
def chaikinIters (complexity : ℤ) : ℕ :=
  if 20 ≤ complexity then 4 else if 14 ≤ complexity then 3 else 2

/-- The internal effective-width scaling (lines 70-76). -/
noncomputable def effectiveWidth (width complexity : ℤ) : ℝ :=
  let e1 : ℝ := (width : ℝ)
  let e2 := if 14 ≤ complexity then e1 * 0.9 else e1
  let e3 := if 18 ≤ complexity then e2 * 0.8 else e2
  if 70 ≤ width then e3 * 0.9 else e3

/-- The fixed weather enumeration accepted by the generator. -/
def validWeathers : List String := ["CLEAR", "RAIN", "SNOW"]

/-- `generate_track width complexity seed intended_weather`, with the ambient
random state passed explicitly: it is consulted only when `seed` is `none`.
The source's trailing `assert` on the weather tag is modelled as the
`Except` error case. -/
noncomputable def generate_track (width complexity : ℤ) (seed : Option ℤ)
    (intendedWeather : String) (ambient : PyRng) : Except GenError TrackData :=
  let rng := match seed with
    | some s => pyRandom s
    | none => ambient
  let n := nCtrl complexity
  let ctrl0 := (mkControls n rng).1
  let ctrl := chaikinLoop ctrl0 (chaikinIters complexity)
  let center := catmullRomLoop ctrl (8 * n)
  let ew := effectiveWidth width complexity
  let io := offsetBoundaries center ew
  let io2 := sanitizeBoundaries io.1 io.2
  let racing := racingLine center io2.1 io2.2
  let cks := mkCheckpoints center 8
  let startPos := center.getD 0 (0, 0)
  let c1 := center.getD 1 (0, 0)
  let startAngle := atan2 (c1.2 - startPos.2) (c1.1 - startPos.1)
  if intendedWeather ∈ validWeathers then
    Except.ok
      { centerline := center
        inner_boundary := io2.1
        outer_boundary := io2.2
        racing_line := racing
        checkpoints := cks
        start_pos := startPos
        start_angle := startAngle
        width := ew
        seed := seed
        intended_weather := intendedWeather }
  else Except.error GenError.invalidArgument

/-- The mutable state of a `Car` instance: every attribute set in
`Car.__init__` (src/car.py lines 18-78). -/
@[ext]
structure CarState where
  x : ℝ
  y : ℝ
  angle : ℝ
  velocity_x : ℝ
  velocity_y : ℝ
  angular_velocity : ℝ
  color : ℕ × ℕ × ℕ
  name : String
  width : ℝ
  height : ℝ
  max_speed : ℝ
  acceleration_rate : ℝ
  brake_rate : ℝ
  turning_speed : ℝ
  base_friction : ℝ
  mass : ℝ
  wheelbase : ℝ
  tire_grip : ℝ
  static_friction_threshold : ℝ
  slip_angle_max : ℝ
  min_turn_speed : ℝ
  optimal_turn_speed : ℝ
  high_speed_turn_reduction : ℝ
  traction_control : Bool
  max_acceleration_grip : ℝ
  drag_coefficient : ℝ
  throttle : ℝ
  steering : ℝ
  handbrake : Bool
  on_track : Bool
  off_track_grip_multiplier : ℝ
  engine_sound_pitch : ℝ
  tire_squeal_intensity : ℝ
  speed_for_audio : ℝ

/-- `Car.__init__` with the source's constants filled in. -/
noncomputable def mkCar (x y angle : ℝ) (color : ℕ × ℕ × ℕ)
    (maxSpeed acceleration turningSpeed friction : ℝ) (name : String) : CarState :=
  { x := x
    y := y
    angle := angle
    velocity_x := 0
    velocity_y := 0
    angular_velocity := 0
    color := color
    name := name
    width := 20
    height := 10
    max_speed := maxSpeed
    acceleration_rate := acceleration
    brake_rate := acceleration * 2
    turning_speed := turningSpeed
    base_friction := friction
    mass := 1200
    wheelbase := 15
    tire_grip := 0.95
    static_friction_threshold := 5
    slip_angle_max := 0.15
    min_turn_speed := 10
    optimal_turn_speed := 80
    high_speed_turn_reduction := 0.3
    traction_control := true
    max_acceleration_grip := 0.8
    drag_coefficient := 0.001
    throttle := 0
    steering := 0
    handbrake := false
    on_track := true
    off_track_grip_multiplier := 0.4
    engine_sound_pitch := 1
    tire_squeal_intensity := 0
    speed_for_audio := 0 }

/-- The speed `sqrt(vx^2 + vy^2)` measured at the start of `Car.update`. -/
noncomputable def carSpeed (s : CarState) : ℝ :=
  Real.sqrt (s.velocity_x * s.velocity_x + s.velocity_y * s.velocity_y)

/-- Closed form of the two while loops normalising the slip angle into
`[-pi, pi]`: each iteration shifts by `2*pi`, and the iteration count of the
loop equals the ceiling taken here. -/
noncomputable def normalizeSlip (s : ℝ) : ℝ :=
  if Real.pi < s then s - 2 * Real.pi * ((⌈(s - Real.pi) / (2 * Real.pi)⌉ : ℤ) : ℝ)
  else if s < -Real.pi then s + 2 * Real.pi * ((⌈(-Real.pi - s) / (2 * Real.pi)⌉ : ℤ) : ℝ)
  else s

/-- Section 1 of `Car.update` (acceleration and braking, lines 95-140).
`speed0` and `grip0` are the speed and grip computed at the start of the
call; the trailing Python guard `throttle > 0 or (throttle < 0 and
current_speed < 0.1)` decides whether a computed acceleration is applied. -/
noncomputable def accelPhase (s : CarState) (dt speed0 grip0 : ℝ) : CarState :=
  if |s.angular_velocity| < 5 then
    if s.throttle > 0 then
      let af0 := s.throttle * s.acceleration_rate
      let af := if s.traction_control then
          min af0 (grip0 * s.max_acceleration_grip * s.acceleration_rate)
        else af0
      { s with velocity_x := s.velocity_x + Real.cos s.angle * af * dt
               velocity_y := s.velocity_y + Real.sin s.angle * af * dt }
    else if s.throttle < 0 then
      if speed0 > 0.1 then
        let bf := -s.throttle * s.brake_rate
        let nvx := s.velocity_x + (-(s.velocity_x / speed0) * bf * dt)
        let nvy := s.velocity_y + (-(s.velocity_y / speed0) * bf * dt)
        if nvx * s.velocity_x < 0 ∨ nvy * s.velocity_y < 0 then
          { s with velocity_x := 0, velocity_y := 0 }
        else
          { s with velocity_x := nvx, velocity_y := nvy }
      else
        if speed0 < 0.1 then
          let af := s.throttle * s.acceleration_rate * 0.5
          { s with velocity_x := s.velocity_x + Real.cos s.angle * af * dt
                   velocity_y := s.velocity_y + Real.sin s.angle * af * dt }
        else s
    else s
  else s

/-- Section 2 of `Car.update` (steering physics, lines 142-212). -/
noncomputable def steeringPhase (s : CarState) (dt speed0 grip0 : ℝ) : CarState :=
  if speed0 > s.static_friction_threshold ∧ |s.steering| > 0.01 then
    let eff :=
      if speed0 < s.min_turn_speed then 0.2
      else if speed0 < s.optimal_turn_speed then
        0.2 + 0.8 * ((speed0 - s.min_turn_speed) / (s.optimal_turn_speed - s.min_turn_speed))
      else max s.high_speed_turn_reduction (s.optimal_turn_speed / speed0)
    let tr0 := s.steering * s.turning_speed * eff * grip0
    let tr := if s.handbrake then tr0 * 1.5 else tr0
    let grip1 := if s.handbrake then grip0 * 0.6 else grip0
    let ang := s.angle + tr * dt
    let s1 := { s with angular_velocity := tr, angle := ang }
    if |tr| > 0.01 then
      let centripetal := speed0 * |tr| * 0.5
      let maxLat := grip1 * speed0 * 0.8
      let lat := min centripetal maxLat
      if speed0 > 1 then
        let velAngle := atan2 s1.velocity_y s1.velocity_x
        let slip := normalizeSlip (ang - velAngle)
        let lat2 := if |slip| > s.slip_angle_max then lat * max 0.3 (1 - |slip| / Real.pi)
          else lat
        let squeal := if |slip| > s.slip_angle_max then min 1 (|slip| * 2) else |slip| * 0.5
        let af := lat2 * dt * 0.1
        let tvx := Real.cos ang * speed0
        let tvy := Real.sin ang * speed0
        { s1 with tire_squeal_intensity := squeal
                  velocity_x := s1.velocity_x + (tvx - s1.velocity_x) * af
                  velocity_y := s1.velocity_y + (tvy - s1.velocity_y) * af }
      else s1
    else s1
  else { s with angular_velocity := 0, tire_squeal_intensity := 0 }

/-- Section 3 of `Car.update` (drag, friction and the full stop at very low
speed, lines 214-240). -/
noncomputable def dragFrictionPhase (s : CarState) (dt speed0 : ℝ) : CarState :=
  let s1 :=
    if speed0 > 0 then
      let df := s.drag_coefficient * speed0 * speed0
      { s with velocity_x := s.velocity_x + (-(s.velocity_x / speed0) * df * dt)
               velocity_y := s.velocity_y + (-(s.velocity_y / speed0) * df * dt) }
    else s
  let ff := if s.on_track then s.base_friction else s.base_friction * 0.7
  let ftf := if speed0 < 10 then 1 - 5 * dt else Real.rpow ff dt
  let s2 := { s1 with velocity_x := s1.velocity_x * ftf, velocity_y := s1.velocity_y * ftf }
  if speed0 < 1 ∧ s.throttle = 0 then
    { s2 with velocity_x := 0, velocity_y := 0 }
  else s2

/-- Section 4 of `Car.update` (speed limiting, lines 242-247): triggered by
the speed measured at the start of the call. -/
noncomputable def limitPhase (s : CarState) (speed0 : ℝ) : CarState :=
  if speed0 > s.max_speed then
    { s with velocity_x := s.velocity_x * (s.max_speed / speed0)
             velocity_y := s.velocity_y * (s.max_speed / speed0) }
  else s

/-- Section 5 of `Car.update` (position integration, lines 249-251). -/
noncomputable def positionPhase (s : CarState) (dt : ℝ) : CarState :=
  { s with x := s.x + s.velocity_x * dt, y := s.y + s.velocity_y * dt }

/-- `Car._point_in_track`: a fixed annulus test around `(600, 400)` with
radii 180 and 320.  The passed track data is ignored by the source. -/
noncomputable def point_in_track (p : Point) (td : TrackData) : Bool :=
  let d := Real.sqrt ((p.1 - 600) * (p.1 - 600) + (p.2 - 400) * (p.2 - 400))
  if 180 < d ∧ d < 320 then true else false

/-- `Car._find_closest_boundary`: closest point and normal on the fixed
annulus; the track data is ignored by the source. -/
noncomputable def find_closest_boundary (p : Point) (td : TrackData) :
    Option Point × Point :=
  let dx := p.1 - 600
  let dy := p.2 - 400
  let dist := Real.sqrt (dx * dx + dy * dy)
  if dist > 0 then
    let nx := dx / dist
    let ny := dy / dist
    if dist < 250 then
      (some (600 + nx * 180, 400 + ny * 180), (nx, ny))
    else
      (some (600 + nx * 320, 400 + ny * 320), (-nx, -ny))
  else (none, (0, 0))

/-- Section 6 of `Car.update` (`_check_track_collision`, lines 260-294). -/
noncomputable def collisionPhase (s : CarState) (td : TrackData) : CarState :=
  let onT := point_in_track (s.x, s.y) td
  let s1 := { s with on_track := onT }
  if onT then s1
  else
    let cb := find_closest_boundary (s1.x, s1.y) td
    match cb.1 with
    | none => s1
    | some cp =>
        let dx := s1.x - cp.1
        let dy := s1.y - cp.2
        let pen := Real.sqrt (dx * dx + dy * dy)
        if pen < 15 then
          let nrm := cb.2
          let vdn := s1.velocity_x * nrm.1 + s1.velocity_y * nrm.2
          if vdn < 0 then
            let push := max 0 (15 - pen)
            { s1 with velocity_x := s1.velocity_x - vdn * nrm.1 * (1 + 0.2)
                      velocity_y := s1.velocity_y - vdn * nrm.2 * (1 + 0.2)
                      x := s1.x + nrm.1 * push
                      y := s1.y + nrm.2 * push }
          else s1
        else s1

/-- Section 7 of `Car.update` (audio readouts, lines 256-258). -/
noncomputable def audioPhase (s : CarState) (speed0 : ℝ) : CarState :=
  { s with speed_for_audio := speed0
           engine_sound_pitch := 0.8 + speed0 / s.max_speed * 0.6 }

/-- `Car.update dt track_data`: one pass of the seven phases over the full
`dt` (the source performs no substepping). -/
noncomputable def carUpdate (s : CarState) (dt : ℝ) (td : TrackData) : CarState :=
  let speed0 := carSpeed s
  let grip0 := if s.on_track then s.tire_grip else s.tire_grip * s.off_track_grip_multiplier
  audioPhase
    (collisionPhase
      (positionPhase
        (limitPhase
          (dragFrictionPhase
            (steeringPhase (accelPhase s dt speed0 grip0) dt speed0 grip0)
            dt speed0)
          speed0)
        dt)
      td)
    speed0

/-- `Car.set_input`: clamp and store the control inputs. -/
noncomputable def set_input (s : CarState) (throttle steering : ℝ)
    (handbrake : Bool) : CarState :=
  { s with throttle := max (-1) (min 1 throttle)
           steering := max (-1) (min 1 steering)
           handbrake := handbrake }

/-- `Car.get_speed_kmh`. -/
noncomputable def get_speed_kmh (s : CarState) : ℝ :=
  carSpeed s * 0.1 * 3.6

/-- `Car.reset x y angle`. -/
def carReset (s : CarState) (x y angle : ℝ) : CarState :=
  { s with x := x
           y := y
           angle := angle
           velocity_x := 0
           velocity_y := 0
           angular_velocity := 0
           throttle := 0
           steering := 0
           handbrake := false }

/-- Modelled from the spec (section 4.2, missing from the source
`Car.update`): substep integration with `steps = max(1, ceil(dt / subDt))`,
`subDt = 1/240`, each substep running the full physics pass on `dt / steps`. -/
noncomputable def updateSubstepped (s : CarState) (dt : ℝ) (td : TrackData) : CarState :=
  let steps : ℕ := max 1 ⌈dt / (1 / 240)⌉₊
  (fun c => carUpdate c (dt / (steps : ℝ)) td)^[steps] s

/-- The three surface kinds named by the spec. -/
inductive Surface where
  | offroad
  | grass
  | asphalt

/-- Modelled from the spec (section 4.2 step 1, missing from the source
`Car._point_in_track`): nested point-in-polygon surface classification
against the track's outer and inner boundaries. -/
noncomputable def classifySurfaceSpec (td : TrackData) (p : Point) : Surface :=
  if ! pointInPolygon p td.outer_boundary then Surface.offroad
  else if pointInPolygon p td.inner_boundary then Surface.grass
  else Surface.asphalt

/-- The pinch factor exactly as the spec states it:
`clamp(1 - curvature/pi * 1.2 * widthScale, 0.40, 1.0)`. -/
noncomputable def pinchFactorSpec (center : List Point) (w : ℝ) (i : ℕ) : ℝ :=
  let curvNorm := turnAngle center i / Real.pi
  let widthScale := min 1 (w / 60)
  max 0.40 (min 1 (1 - curvNorm * 1.2 * widthScale))

/-- The inner boundary point the spec's pinch formula would produce. -/
noncomputable def innerPointSpec (center : List Point) (w : ℝ) (i : ℕ) : Point :=
  let p := center.getD i (0, 0)
  let nv := unitNormal center i
  (p.1 - nv.1 * (w / 2) * pinchFactorSpec center w i,
   p.2 - nv.2 * (w / 2) * pinchFactorSpec center w i)

/- ------------------------------------------------------------------ -/
/- Shared helper lemmas                                                -/
/- ------------------------------------------------------------------ -/

/-- Reading an index below `n` out of `(List.range n).map f` yields `f i`. -/
theorem getD_map_range {α : Type} (f : ℕ → α) (n i : ℕ) (d : α) (h : i < n) :
    ((List.range n).map f).getD i d = f i := by
  rw [List.getD_eq_getElem?_getD]
  simp [List.getElem?_map, List.getElem?_range h]

/-- The annulus reading of `Car._point_in_track`. -/
theorem point_in_track_iff (p : Point) (td : TrackData) :
    point_in_track p td = true ↔
      180 < Real.sqrt ((p.1 - 600) * (p.1 - 600) + (p.2 - 400) * (p.2 - 400)) ∧
        Real.sqrt ((p.1 - 600) * (p.1 - 600) + (p.2 - 400) * (p.2 - 400)) < 320 := by
  by_cases hc : 180 < Real.sqrt ((p.1 - 600) * (p.1 - 600) + (p.2 - 400) * (p.2 - 400)) ∧
      Real.sqrt ((p.1 - 600) * (p.1 - 600) + (p.2 - 400) * (p.2 - 400)) < 320 <;>
    simp [point_in_track, hc]

/-- A track with a plain square outer boundary and a small square island;
only its boundary polygons matter to the claims that use it. -/
noncomputable def squareTrack : TrackData :=
  { centerline := []
    inner_boundary := [(590, 390), (610, 390), (610, 410), (590, 410)]
    outer_boundary := [(0, 0), (1200, 0), (1200, 800), (0, 800)]
    racing_line := []
    checkpoints := []
    start_pos := (0, 0)
    start_angle := 0
    width := 50
    seed := none
    intended_weather := "CLEAR" }

/- ------------------------------------------------------------------ -/
/- C1: determinism of generation                                       -/
/- ------------------------------------------------------------------ -/

/-- C1: for every width, complexity, weather tag in the fixed enumeration
and non-null integer seed, `generate_track` does not consult the ambient
random state, so two calls with identical arguments return identical
results: the same centerline, boundaries, racing line, checkpoints,
start position, start angle and width. -/
theorem generate_track_deterministic (w c s : ℤ) (wt : String)
    (amb1 amb2 : PyRng) (hwt : wt ∈ validWeathers) :
    generate_track w c (some s) wt amb1 = generate_track w c (some s) wt amb2 := rfl

/-- Witness for C1 at concrete arguments. -/
theorem generate_track_deterministic_witness :
    "CLEAR" ∈ validWeathers ∧
      generate_track 50 10 (some 42) "CLEAR" ⟨0⟩ = generate_track 50 10 (some 42) "CLEAR" ⟨7⟩ :=
  ⟨by decide, generate_track_deterministic 50 10 42 "CLEAR" ⟨0⟩ ⟨7⟩ (by decide)⟩

/- ------------------------------------------------------------------ -/
/- C8: generator error contract                                        -/
/- ------------------------------------------------------------------ -/

/-- C8: `generate_track` raises an invalid-argument error exactly when the
weather tag is not CLEAR, RAIN or SNOW; every other input combination
completes without error, and the complexity is clamped from below: the
generator uses `max 6 complexity` control points, which is at least 6. -/
theorem generator_error_contract (w c : ℤ) (seed : Option ℤ) (wt : String)
    (amb : PyRng) :
    ((generate_track w c seed wt amb).isOk = true ↔ wt ∈ validWeathers) ∧
      (nCtrl c : ℤ) = max 6 c ∧ 6 ≤ nCtrl c := by
  refine ⟨?_, ?_, ?_⟩
  · by_cases hwt : wt ∈ validWeathers <;>
      simp [generate_track, hwt, Except.isOk, Except.toBool]
  · unfold nCtrl
    omega
  · unfold nCtrl
    omega

/- ------------------------------------------------------------------ -/
/- C4: surface classification                                          -/
/- ------------------------------------------------------------------ -/

/-- Counterexample to C4: at the point `(600, 500)` and the square track,
the spec's point-in-polygon classification says asphalt (inside the outer
square, outside the inner island), but the surface test actually used by
`Car.update` reports off-track, because it is a fixed annulus test around
`(600, 400)` that ignores the passed track data. -/
theorem surface_classification_counterexample :
    classifySurfaceSpec squareTrack (600, 500) = Surface.asphalt ∧
      point_in_track (600, 500) squareTrack = false := by
  constructor
  · norm_num [classifySurfaceSpec, squareTrack, pointInPolygon,
      List.range_succ, List.getD_cons_zero, List.getD_cons_succ]
  · have h : Real.sqrt (((500:ℝ) - 400) * (500 - 400)) = 100 := by
      rw [show (((500:ℝ) - 400) * (500 - 400)) = 100 ^ 2 by norm_num,
        Real.sqrt_sq (by norm_num)]
    simp [point_in_track, h]
    norm_num

/-- C4 as amended: the surface classification used by `Car.update` ignores
the passed track data entirely, and reports on-track exactly when the car's
distance from the fixed centre `(600, 400)` lies strictly between 180
and 320. -/
theorem surface_classification_corrected (p : Point) (td td2 : TrackData) :
    point_in_track p td = point_in_track p td2 ∧
      (point_in_track p td = true ↔
        180 < Real.sqrt ((p.1 - 600) * (p.1 - 600) + (p.2 - 400) * (p.2 - 400)) ∧
          Real.sqrt ((p.1 - 600) * (p.1 - 600) + (p.2 - 400) * (p.2 - 400)) < 320) :=
  ⟨rfl, point_in_track_iff p td⟩

/- ------------------------------------------------------------------ -/
/- C2: speed cap                                                       -/
/- ------------------------------------------------------------------ -/

/-- C2 as amended: the only speed cap in `Car.update` is a single per-call
rescale: when the speed measured at the start of the call exceeds
`max_speed`, the speed-limiting section multiplies the current velocity by
`max_speed / speed0`, so the resulting speed is the current speed scaled by
that ratio (it equals `max_speed` only when the velocity is still the
start-of-call velocity); no per-substep or per-surface cap exists, and the
post-update speed can exceed `max_speed`. -/
theorem speed_cap_corrected (s : CarState) (speed0 : ℝ)
    (h : speed0 > s.max_speed) (h0 : 0 ≤ s.max_speed) :
    carSpeed (limitPhase s speed0) = carSpeed s * (s.max_speed / speed0) := by
  have hs0 : 0 < speed0 := lt_of_le_of_lt h0 h
  have hr : 0 ≤ s.max_speed / speed0 := div_nonneg h0 hs0.le
  simp only [limitPhase, if_pos h, carSpeed]
  rw [show s.velocity_x * (s.max_speed / speed0) * (s.velocity_x * (s.max_speed / speed0)) +
        s.velocity_y * (s.max_speed / speed0) * (s.velocity_y * (s.max_speed / speed0)) =
      (s.velocity_x * s.velocity_x + s.velocity_y * s.velocity_y) *
        (s.max_speed / speed0) ^ 2 by ring]
  rw [Real.sqrt_mul (add_nonneg (mul_self_nonneg _) (mul_self_nonneg _)), Real.sqrt_sq hr]

/-- Witness for the amended C2 at a concrete state. -/
theorem speed_cap_corrected_witness :
    (300:ℝ) > (mkCar 850 400 0 (0, 0, 0) 200 15 2.5 0.92 "Car").max_speed ∧
      (0:ℝ) ≤ (mkCar 850 400 0 (0, 0, 0) 200 15 2.5 0.92 "Car").max_speed ∧
      carSpeed (limitPhase (mkCar 850 400 0 (0, 0, 0) 200 15 2.5 0.92 "Car") 300) =
        carSpeed (mkCar 850 400 0 (0, 0, 0) 200 15 2.5 0.92 "Car") *
          ((mkCar 850 400 0 (0, 0, 0) 200 15 2.5 0.92 "Car").max_speed / 300) :=
  ⟨by norm_num [mkCar], by norm_num [mkCar],
    speed_cap_corrected (mkCar 850 400 0 (0, 0, 0) 200 15 2.5 0.92 "Car") 300
      (by norm_num [mkCar]) (by norm_num [mkCar])⟩

/- ------------------------------------------------------------------ -/
/- C5 and C6: boundary offsets and the pinch guard                     -/
/- ------------------------------------------------------------------ -/

/-- The pinch factor never drops below its floor of 0.40. -/
theorem pinchFactor_ge (center : List Point) (w : ℝ) (i : ℕ) :
    0.40 ≤ pinchFactor center w i := by
  simp only [pinchFactor]
  exact le_max_left _ _

/-- The turn angle is an arc cosine, hence nonnegative. -/
theorem turnAngle_nonneg (center : List Point) (i : ℕ) : 0 ≤ turnAngle center i := by
  simp only [turnAngle]
  exact Real.arccos_nonneg _

/-- When the tangent chord is nonzero, the averaged normal is a unit vector. -/
theorem unitNormal_sq (center : List Point) (i : ℕ)
    (h : tangentChord center i ≠ (0, 0)) :
    (unitNormal center i).1 * (unitNormal center i).1 +
      (unitNormal center i).2 * (unitNormal center i).2 = 1 := by
  set t := tangentChord center i with ht
  have hne : t.1 ≠ 0 ∨ t.2 ≠ 0 := by
    by_contra hc
    push_neg at hc
    exact h (Prod.ext hc.1 hc.2)
  have hq : 0 < t.1 * t.1 + t.2 * t.2 := by
    rcases hne with h1 | h2
    · nlinarith [mul_self_nonneg t.2, mul_self_pos.2 h1]
    · nlinarith [mul_self_nonneg t.1, mul_self_pos.2 h2]
  have hL : 0 < Real.sqrt (t.1 * t.1 + t.2 * t.2) := Real.sqrt_pos.2 hq
  have hLL : Real.sqrt (t.1 * t.1 + t.2 * t.2) * Real.sqrt (t.1 * t.1 + t.2 * t.2) =
      t.1 * t.1 + t.2 * t.2 := Real.mul_self_sqrt hq.le
  simp only [unitNormal, chordLen, ← ht, if_neg hL.ne']
  field_simp
  linarith [hLL]

/-- C6: corridor floor.  For any centerline, nonnegative effective width and
index whose tangent chord is nondegenerate, the boundary entries produced by
`_offset_boundaries` sit at distance `(w/2) * pinch` from the centerline
point, which is at least `0.40 * (w/2)`; the pinch factor itself never drops
below 0.40. -/
theorem corridor_floor (center : List Point) (w : ℝ) (i : ℕ)
    (hw : 0 ≤ w) (hch : tangentChord center i ≠ (0, 0)) (hi : i < center.length) :
    0.40 ≤ pinchFactor center w i ∧
      (offsetBoundaries center w).1.getD i (0, 0) = innerPoint center w i ∧
      (offsetBoundaries center w).2.getD i (0, 0) = outerPoint center w i ∧
      0.40 * (w / 2) ≤ Real.sqrt
        (((center.getD i (0, 0)).1 - (innerPoint center w i).1) ^ 2 +
          ((center.getD i (0, 0)).2 - (innerPoint center w i).2) ^ 2) ∧
      0.40 * (w / 2) ≤ Real.sqrt
        (((center.getD i (0, 0)).1 - (outerPoint center w i).1) ^ 2 +
          ((center.getD i (0, 0)).2 - (outerPoint center w i).2) ^ 2) := by
  have hn := unitNormal_sq center i hch
  have hpf : 0.40 ≤ pinchFactor center w i := pinchFactor_ge center w i
  have hoff : 0 ≤ w / 2 * pinchFactor center w i :=
    mul_nonneg (by linarith) (by linarith)
  have hstep : ∀ q : Point,
      ((center.getD i (0, 0)).1 - q.1 =
          (unitNormal center i).1 * (w / 2) * pinchFactor center w i ∨
        (center.getD i (0, 0)).1 - q.1 =
          -((unitNormal center i).1 * (w / 2) * pinchFactor center w i)) →
      ((center.getD i (0, 0)).2 - q.2 =
          (unitNormal center i).2 * (w / 2) * pinchFactor center w i ∨
        (center.getD i (0, 0)).2 - q.2 =
          -((unitNormal center i).2 * (w / 2) * pinchFactor center w i)) →
      0.40 * (w / 2) ≤ Real.sqrt
        (((center.getD i (0, 0)).1 - q.1) ^ 2 + ((center.getD i (0, 0)).2 - q.2) ^ 2) := by
    intro q h1 h2
    have hsum : ((center.getD i (0, 0)).1 - q.1) ^ 2 + ((center.getD i (0, 0)).2 - q.2) ^ 2 =
        (w / 2 * pinchFactor center w i) ^ 2 := by
      rcases h1 with h1 | h1 <;> rcases h2 with h2 | h2 <;>
        · rw [h1, h2]
          linear_combination (w / 2 * pinchFactor center w i) ^ 2 * hn
    rw [hsum, Real.sqrt_sq hoff]
    nlinarith [hpf, hw]
  refine ⟨hpf, getD_map_range _ _ _ _ hi, getD_map_range _ _ _ _ hi, ?_, ?_⟩
  · refine hstep _ (Or.inl ?_) (Or.inl ?_) <;> · simp only [innerPoint]; ring
  · refine hstep _ (Or.inr ?_) (Or.inr ?_) <;> · simp only [outerPoint]; ring

/-- A small concrete centerline with a right-angle corner at index 1. -/
noncomputable def demoCenter : List Point := [(0, 0), (1, 0), (1, 1)]

/-- The tangent chord of the demo centerline at index 1. -/
theorem tangentChord_demo : tangentChord demoCenter 1 = (1, 1) := by
  simp only [tangentChord, demoCenter, prevIdx, nextIdx]
  norm_num

/-- Witness for C6 at the demo centerline. -/
theorem corridor_floor_witness :
    (0:ℝ) ≤ 60 ∧ tangentChord demoCenter 1 ≠ (0, 0) ∧ 1 < demoCenter.length ∧
      0.40 ≤ pinchFactor demoCenter 60 1 := by
  have hch : tangentChord demoCenter 1 ≠ (0, 0) := by
    rw [tangentChord_demo]
    intro hcon
    have := congrArg Prod.fst hcon
    norm_num at this
  have hlen : 1 < demoCenter.length := by simp [demoCenter]
  exact ⟨by norm_num, hch, hlen,
    (corridor_floor demoCenter 60 1 (by norm_num) hch hlen).1⟩

/-- The turn angle of the demo centerline at its right-angle corner. -/
theorem turnAngle_demo : turnAngle demoCenter 1 = Real.pi / 2 := by
  simp only [turnAngle, demoCenter, prevIdx, nextIdx]
  norm_num [Real.sqrt_one]

/-- The pinch factor the source computes at the demo corner: the shrink
amount `0.6` is capped at `0.45`, leaving a factor of `0.55`. -/
theorem pinchFactor_demo : pinchFactor demoCenter 60 1 = 0.55 := by
  simp only [pinchFactor, turnAngle_demo]
  rw [show Real.pi / 2 / Real.pi = 1 / 2 by
    field_simp
    ring]
  norm_num

/-- The pinch factor the spec's formula yields at the demo corner: the raw
value `1 - 0.6 = 0.4` survives the clamp. -/
theorem pinchFactorSpec_demo : pinchFactorSpec demoCenter 60 1 = 0.4 := by
  simp only [pinchFactorSpec, turnAngle_demo]
  rw [show Real.pi / 2 / Real.pi = 1 / 2 by
    field_simp
    ring]
  norm_num

/-- Counterexample to C5: at the demo centerline with effective width 60,
the boundary point computed by `_offset_boundaries` differs from the point
the spec's formula `clamp(1 - curvature/pi * 1.2 * widthScale, 0.40, 1.0)`
would produce, because the source first caps the shrink amount at 0.45. -/
theorem pinch_factor_counterexample :
    innerPoint demoCenter 60 1 ≠ innerPointSpec demoCenter 60 1 := by
  intro h
  have h2 := congrArg Prod.snd h
  have hs : (0:ℝ) < Real.sqrt 2 := by positivity
  simp only [innerPoint, innerPointSpec, pinchFactor_demo, pinchFactorSpec_demo] at h2
  have hnv : (unitNormal demoCenter 1).2 = 1 / Real.sqrt 2 := by
    simp only [unitNormal, chordLen, tangentChord_demo]
    rw [show ((1:ℝ) * 1 + 1 * 1) = 2 by norm_num, if_neg hs.ne']
  rw [hnv] at h2
  have h3 : (1 / Real.sqrt 2) * (60 / 2) * 0.55 = (1 / Real.sqrt 2) * (60 / 2) * 0.4 := by
    linarith
  have h4 : (1 / Real.sqrt 2) * (60 / 2) ≠ 0 := by positivity
  have h5 := mul_left_cancel₀ h4 h3
  norm_num at h5

/-- C5 as amended: the boundary points are offset along the averaged normal
by `±(w/2) * pinchFactor`, but with
`pinchFactor = max(0.55, 1 - curvature/pi * 1.2 * widthScale)`: the source
caps the shrink amount at 0.45 before applying the 0.40 floor, so the 0.40
floor is never the binding bound. -/
theorem pinch_factor_corrected (center : List Point) (w : ℝ) (i : ℕ)
    (hw : 0 ≤ w) (hi : i < center.length) :
    (offsetBoundaries center w).1.getD i (0, 0) = innerPoint center w i ∧
      (offsetBoundaries center w).2.getD i (0, 0) = outerPoint center w i ∧
      pinchFactor center w i =
        max 0.55 (1 - turnAngle center i / Real.pi * 1.2 * min 1 (w / 60)) := by
  refine ⟨getD_map_range _ _ _ _ hi, getD_map_range _ _ _ _ hi, ?_⟩
  have ha : 0 ≤ turnAngle center i / Real.pi * 1.2 * min 1 (w / 60) := by
    have h1 := turnAngle_nonneg center i
    have h2 := Real.pi_pos
    have h3 : 0 ≤ min 1 (w / 60) := le_min (by norm_num) (by positivity)
    positivity
  simp only [pinchFactor]
  rcases le_total (turnAngle center i / Real.pi * 1.2 * min 1 (w / 60)) 0.45 with hle | hle
  · rw [min_eq_right hle, max_eq_right (by linarith), max_eq_right (by linarith)]
  · rw [min_eq_left hle, show (1:ℝ) - 0.45 = 0.55 by norm_num,
      max_eq_right (by norm_num : (0.40:ℝ) ≤ 0.55), eq_comm,
      max_eq_left (by linarith)]

/-- Witness for the amended C5 at the demo centerline. -/
theorem pinch_factor_corrected_witness :
    (0:ℝ) ≤ 60 ∧ 1 < demoCenter.length ∧
      pinchFactor demoCenter 60 1 =
        max 0.55 (1 - turnAngle demoCenter 1 / Real.pi * 1.2 * min 1 (60 / 60)) :=
  ⟨by norm_num, by simp [demoCenter],
    (pinch_factor_corrected demoCenter 60 1 (by norm_num) (by simp [demoCenter])).2.2⟩

/- ------------------------------------------------------------------ -/
/- C7: containment after the orientation check                         -/
/- ------------------------------------------------------------------ -/

/-- The containment property the spec asserts about the pair returned by
the orientation check: every inner point sampled at the coarse stride lies
inside the outer polygon. -/
def sampledContainment (pair : List Point × List Point) : Prop :=
  ∀ i ∈ strideIdxs pair.1.length (max 1 (pair.1.length / 12)),
    pointInPolygon (pair.1.getD i (0, 0)) pair.2 = true

/-- A triangle near the origin. -/
noncomputable def triA : List Point := [(0, 0), (1, 0), (0, 1)]

/-- A disjoint triangle far from `triA`. -/
noncomputable def triB : List Point := [(10, 10), (11, 10), (10, 11)]

/-- The first vertex of `triA` is outside `triB`. -/
theorem pip_triA0_triB : pointInPolygon (triA.getD 0 (0, 0)) triB = false := by
  norm_num [pointInPolygon, triA, triB, List.range_succ,
    List.getD_cons_zero, List.getD_cons_succ]

/-- The first vertex of `triB` is outside `triA`. -/
theorem pip_triB0_triA : pointInPolygon (triB.getD 0 (0, 0)) triA = false := by
  norm_num [pointInPolygon, triA, triB, List.range_succ,
    List.getD_cons_zero, List.getD_cons_succ]

/-- On the disjoint pair, the orientation check fires and swaps. -/
theorem sanitize_swaps_demo : sanitizeBoundaries triA triB = (triB, triA) := by
  have h0 : (strideIdxs triA.length (max 1 (triA.length / 12))).any
      (fun i => ! pointInPolygon (triA.getD i (0, 0)) triB) = true := by
    have hm : (0:ℕ) ∈ strideIdxs triA.length (max 1 (triA.length / 12)) := by
      simp [strideIdxs, triA]
    refine List.any_eq_true.2 ⟨0, hm, ?_⟩
    show (! pointInPolygon (triA.getD 0 (0, 0)) triB) = true
    rw [pip_triA0_triB]
    decide
  simp only [sanitizeBoundaries]
  rw [if_pos (by simp [triA, triB]), if_pos h0]

/-- Counterexample to C7: after the orientation check has swapped the two
disjoint triangles, the first sampled point of the returned inner boundary
is still outside the returned outer polygon — the check swaps once and
never re-verifies, so it does not enforce the containment invariant. -/
theorem containment_counterexample :
    ¬ sampledContainment (sanitizeBoundaries triA triB) := by
  intro hcl
  rw [sanitize_swaps_demo] at hcl
  have hmem : (0:ℕ) ∈ strideIdxs ((triB, triA).1).length
      (max 1 (((triB, triA).1).length / 12)) := by
    simp [strideIdxs, triB]
  have hc : pointInPolygon (triB.getD 0 (0, 0)) triA = true := hcl 0 hmem
  rw [pip_triB0_triA] at hc
  exact Bool.false_ne_true hc

/-- C7 as amended: the orientation check guarantees sampled containment only
when it performs no swap: if every sampled inner point already lies inside
the outer polygon, the pair is returned unchanged and the sampled
containment holds; after a swap the property is not re-established. -/
theorem containment_corrected (inner outer : List Point)
    (h : ∀ i ∈ strideIdxs inner.length (max 1 (inner.length / 12)),
        pointInPolygon (inner.getD i (0, 0)) outer = true) :
    sanitizeBoundaries inner outer = (inner, outer) ∧
      sampledContainment (sanitizeBoundaries inner outer) := by
  have hany : (strideIdxs inner.length (max 1 (inner.length / 12))).any
      (fun i => ! pointInPolygon (inner.getD i (0, 0)) outer) = false := by
    rw [List.any_eq_false]
    intro i hi
    show ¬ (! pointInPolygon (inner.getD i (0, 0)) outer) = true
    rw [h i hi]
    decide
  have hs : sanitizeBoundaries inner outer = (inner, outer) := by
    simp only [sanitizeBoundaries]
    split
    · rw [if_neg (by rw [hany]; exact Bool.false_ne_true)]
    · rfl
  refine ⟨hs, ?_⟩
  rw [hs]
  exact h

/-- A triangle strictly inside `triOuter`. -/
noncomputable def triInner : List Point := [(1, 1), (2, 1), (1, 2)]

/-- A large triangle containing `triInner`. -/
noncomputable def triOuter : List Point := [(0, 0), (10, 0), (0, 10)]

/-- Witness for the amended C7 on a genuinely nested pair. -/
theorem containment_corrected_witness :
    (∀ i ∈ strideIdxs triInner.length (max 1 (triInner.length / 12)),
        pointInPolygon (triInner.getD i (0, 0)) triOuter = true) ∧
      sanitizeBoundaries triInner triOuter = (triInner, triOuter) := by
  have h : ∀ i ∈ strideIdxs triInner.length (max 1 (triInner.length / 12)),
      pointInPolygon (triInner.getD i (0, 0)) triOuter = true := by
    intro i hi
    have hi2 : i = 0 ∨ i = 1 ∨ i = 2 := by
      simp [strideIdxs, triInner, List.range_succ] at hi
      omega
    rcases hi2 with rfl | rfl | rfl <;>
      norm_num [pointInPolygon, triInner, triOuter, List.range_succ,
        List.getD_cons_zero, List.getD_cons_succ]
  exact ⟨h, (containment_corrected triInner triOuter h).1⟩

/- ------------------------------------------------------------------ -/
/- Helper lemmas about the car phases                                  -/
/- ------------------------------------------------------------------ -/

/-- For a car moving along the positive x axis the measured speed is its
x velocity. -/
theorem carSpeed_straight (s : CarState) (hvy : s.velocity_y = 0)
    (hvx : 0 ≤ s.velocity_x) : carSpeed s = s.velocity_x := by
  simp only [carSpeed, hvy, mul_zero, add_zero]
  exact Real.sqrt_mul_self hvx

/-- With zero throttle the acceleration section changes nothing. -/
theorem accelPhase_idle (s : CarState) (dt speed0 grip0 : ℝ)
    (hth : s.throttle = 0) : accelPhase s dt speed0 grip0 = s := by
  simp only [accelPhase, hth]
  norm_num

/-- Full throttle from a straight pose: traction control limits the force
to `0.95 * 0.8 * 15 = 11.4` and it is applied along the x axis. -/
theorem accelPhase_full_throttle (s : CarState) (dt speed0 grip0 : ℝ)
    (ha : s.angle = 0) (hth : s.throttle = 1)
    (hav : |s.angular_velocity| < 5) (htc : s.traction_control = true)
    (har : s.acceleration_rate = 15) (hmg : s.max_acceleration_grip = 0.8)
    (hg : grip0 = 0.95) :
    accelPhase s dt speed0 grip0 =
      { s with velocity_x := s.velocity_x + 11.4 * dt } := by
  simp only [accelPhase, if_pos hav, hth, ha, htc, har, hmg, hg, if_true]
  rw [if_pos (by norm_num : (1:ℝ) > 0)]
  have hmin : min ((1:ℝ) * 15) (0.95 * 0.8 * 15) = 11.4 := by
    rw [min_eq_right (by norm_num)]
    norm_num
  rw [hmin]
  ext <;> simp [Real.cos_zero, Real.sin_zero]

/-- With zero steering input the steering section only zeroes the angular
velocity and the squeal readout. -/
theorem steeringPhase_idle (s : CarState) (dt speed0 grip0 : ℝ)
    (hst : s.steering = 0) :
    steeringPhase s dt speed0 grip0 =
      { s with angular_velocity := 0, tire_squeal_intensity := 0 } := by
  simp only [steeringPhase, hst]
  rw [if_neg]
  rintro ⟨-, h2⟩
  rw [abs_zero] at h2
  norm_num at h2

/-- Drag and friction at a start-of-call speed of zero with engaged
throttle: no drag, low-speed friction factor, no full stop. -/
theorem dragFrictionPhase_speed0_zero (s : CarState) (dt : ℝ)
    (hth : s.throttle ≠ 0) :
    dragFrictionPhase s dt 0 =
      { s with velocity_x := s.velocity_x * (1 - 5 * dt)
               velocity_y := s.velocity_y * (1 - 5 * dt) } := by
  simp only [dragFrictionPhase]
  rw [if_neg (by norm_num : ¬ (0:ℝ) > 0), if_pos (by norm_num : (0:ℝ) < 10),
    if_neg (by exact fun hcon => hth hcon.2)]

/-- Drag and friction at a start-of-call speed of zero with zero throttle:
the full-stop branch zeroes the velocity. -/
theorem dragFrictionPhase_stop (s : CarState) (dt : ℝ) (hth : s.throttle = 0) :
    dragFrictionPhase s dt 0 =
      { s with velocity_x := 0, velocity_y := 0 } := by
  simp only [dragFrictionPhase]
  rw [if_neg (by norm_num : ¬ (0:ℝ) > 0), if_pos ⟨by norm_num, hth⟩]

/-- Drag and friction for a slow straight car (positive speed below the
low-speed friction threshold) with engaged throttle. -/
theorem dragFrictionPhase_slow (s : CarState) (dt speed0 : ℝ)
    (h0 : 0 < speed0) (h10 : speed0 < 10) (hth : s.throttle ≠ 0) :
    dragFrictionPhase s dt speed0 =
      { s with
        velocity_x := (s.velocity_x +
          -(s.velocity_x / speed0) * (s.drag_coefficient * speed0 * speed0) * dt) *
            (1 - 5 * dt)
        velocity_y := (s.velocity_y +
          -(s.velocity_y / speed0) * (s.drag_coefficient * speed0 * speed0) * dt) *
            (1 - 5 * dt) } := by
  simp only [dragFrictionPhase]
  rw [if_pos h0, if_pos h10, if_neg (by exact fun hcon => hth hcon.2)]

/-- The speed limiter does nothing when the start-of-call speed is within
the cap. -/
theorem limitPhase_no (s : CarState) (speed0 : ℝ) (h : ¬ speed0 > s.max_speed) :
    limitPhase s speed0 = s := by
  simp only [limitPhase, if_neg h]

/-- The collision section only raises the on-track flag when the car sits
inside the annulus. -/
theorem collisionPhase_on (s : CarState) (td : TrackData)
    (h : point_in_track (s.x, s.y) td = true) :
    collisionPhase s td = { s with on_track := true } := by
  simp only [collisionPhase, h, if_true]

/-- A car on the positive x axis inside the annulus. -/
theorem point_in_track_x_axis (x : ℝ) (td : TrackData)
    (h1 : 180 < x - 600) (h2 : x - 600 < 320) :
    point_in_track (x, 400) td = true := by
  have hd : Real.sqrt ((x - 600) * (x - 600) + ((400:ℝ) - 400) * (400 - 400)) = x - 600 := by
    rw [show ((400:ℝ) - 400) * (400 - 400) = 0 by norm_num, add_zero]
    exact Real.sqrt_mul_self (by linarith)
  simp only [point_in_track]
  rw [hd, if_pos ⟨h1, h2⟩]

/-- Far off to the left of the annulus on the x axis, the collision section
only lowers the on-track flag: the car is more than 15 units away from the
closest point of the outer circle, so neither bounce nor push fires. -/
theorem collisionPhase_far_left (s : CarState) (td : TrackData)
    (hy : s.y = 400) (hx : s.x ≤ 265) :
    collisionPhase s td = { s with on_track := false } := by
  have hd : Real.sqrt ((s.x - 600) * (s.x - 600) + ((400:ℝ) - 400) * (400 - 400)) =
      600 - s.x := by
    rw [show ((400:ℝ) - 400) * (400 - 400) = 0 by norm_num, add_zero,
      show (s.x - 600) * (s.x - 600) = (600 - s.x) * (600 - s.x) by ring]
    exact Real.sqrt_mul_self (by linarith)
  have honT : point_in_track (s.x, s.y) td = false := by
    simp only [point_in_track, hy]
    rw [hd, if_neg]
    rintro ⟨-, hcon⟩
    linarith
  have hdist : (600:ℝ) - s.x > 0 := by linarith
  have hnx : (s.x - 600) / (600 - s.x) = -1 := by
    rw [show s.x - 600 = -(600 - s.x) by ring, neg_div, div_self hdist.ne']
  have hny : ((400:ℝ) - 400) / (600 - s.x) = 0 := by norm_num
  simp only [collisionPhase, honT]
  rw [if_neg (by exact Bool.false_ne_true)]
  simp only [find_closest_boundary, hy]
  rw [hd, if_pos hdist, if_neg (by linarith : ¬ (600 - s.x < 250)), hnx, hny]
  have hpen : Real.sqrt ((s.x - (600 + -1 * 320)) * (s.x - (600 + -1 * 320)) +
      ((400:ℝ) - (400 + 0 * 320)) * (400 - (400 + 0 * 320))) = 280 - s.x := by
    rw [show ((400:ℝ) - (400 + 0 * 320)) * (400 - (400 + 0 * 320)) = 0 by norm_num, add_zero,
      show (s.x - ((600:ℝ) + -1 * 320)) * (s.x - (600 + -1 * 320)) =
        (280 - s.x) * (280 - s.x) by ring]
    exact Real.sqrt_mul_self (by linarith)
  show (if Real.sqrt ((s.x - (600 + -1 * 320)) * (s.x - (600 + -1 * 320)) +
      ((400:ℝ) - (400 + 0 * 320)) * (400 - (400 + 0 * 320))) < 15 then _ else _) = _
  rw [hpen, if_neg (by linarith : ¬ (280 - s.x < 15))]

/-- The speed limiter cannot change a car whose velocity is already zero. -/
theorem limitPhase_zero_vel (s : CarState) (speed0 : ℝ)
    (hvx : s.velocity_x = 0) (hvy : s.velocity_y = 0) : limitPhase s speed0 = s := by
  simp only [limitPhase]
  split
  · ext <;> simp [hvx, hvy]
  · rfl

/-- One full update of a resting car with idle inputs inside the annulus:
the pose and the zero velocity are preserved; only the transient flags and
readouts are rewritten. -/
theorem carUpdate_rest (s : CarState) (td : TrackData) (dt : ℝ)
    (hvx : s.velocity_x = 0) (hvy : s.velocity_y = 0)
    (hth : s.throttle = 0) (hst : s.steering = 0)
    (hpos : point_in_track (s.x, s.y) td = true) :
    carUpdate s dt td = { s with
      velocity_x := 0, velocity_y := 0, angular_velocity := 0,
      tire_squeal_intensity := 0, on_track := true,
      speed_for_audio := 0, engine_sound_pitch := 0.8 } := by
  have hsp : carSpeed s = 0 := by
    rw [carSpeed_straight s hvy (le_of_eq hvx.symm), hvx]
  simp only [carUpdate, hsp]
  rw [accelPhase_idle s dt 0 _ hth]
  rw [steeringPhase_idle s dt 0 _ hst]
  rw [dragFrictionPhase_stop
    { s with angular_velocity := 0, tire_squeal_intensity := 0 } dt hth]
  rw [limitPhase_zero_vel _ 0 rfl rfl]
  rw [collisionPhase_on _ td (by
    show point_in_track (s.x + 0 * dt, s.y + 0 * dt) td = true
    rw [show s.x + (0:ℝ) * dt = s.x by ring, show s.y + (0:ℝ) * dt = s.y by ring]
    exact hpos)]
  simp only [audioPhase, positionPhase]
  ext <;> simp

/-- One full update of a straight full-throttle car on the x axis at low
speed, ending inside the annulus: the new x velocity is the closed form
`(vx + 11.4*dt) * (1 - drag*vx*dt) * (1 - 5*dt)`. -/
theorem carUpdate_straight (s : CarState) (td : TrackData) (dt v2 : ℝ)
    (ha : s.angle = 0) (hvy : s.velocity_y = 0) (hvx0 : 0 ≤ s.velocity_x)
    (hvx10 : s.velocity_x < 10) (hth : s.throttle = 1) (hst : s.steering = 0)
    (hav : |s.angular_velocity| < 5) (hot : s.on_track = true)
    (hy : s.y = 400)
    (hv2 : v2 = (s.velocity_x + 11.4 * dt) *
      (1 - s.drag_coefficient * s.velocity_x * dt) * (1 - 5 * dt))
    (htg : s.tire_grip = 0.95) (hmg : s.max_acceleration_grip = 0.8)
    (har : s.acceleration_rate = 15) (htc : s.traction_control = true)
    (hms : s.max_speed = 200)
    (hx1 : 180 < s.x + v2 * dt - 600) (hx2 : s.x + v2 * dt - 600 < 320) :
    carUpdate s dt td = { s with
      velocity_x := v2, velocity_y := 0, angular_velocity := 0,
      tire_squeal_intensity := 0, x := s.x + v2 * dt, on_track := true,
      speed_for_audio := s.velocity_x,
      engine_sound_pitch := 0.8 + s.velocity_x / 200 * 0.6 } := by
  have hsp : carSpeed s = s.velocity_x := carSpeed_straight s hvy hvx0
  simp only [carUpdate, hsp, hot, htg, if_true]
  rw [accelPhase_full_throttle s dt s.velocity_x 0.95 ha hth hav htc har hmg rfl]
  rw [steeringPhase_idle { s with velocity_x := s.velocity_x + 11.4 * dt }
    dt s.velocity_x 0.95 hst]
  have hdrag : dragFrictionPhase
      { s with
        velocity_x := s.velocity_x + 11.4 * dt
        angular_velocity := 0
        tire_squeal_intensity := 0 } dt s.velocity_x =
      { s with
        velocity_x := v2
        velocity_y := 0
        angular_velocity := 0
        tire_squeal_intensity := 0 } := by
    rcases hvx0.eq_or_lt with hz | hpos0
    · rw [show s.velocity_x = (0:ℝ) from hz.symm, dragFrictionPhase_speed0_zero _ dt
        (by show s.throttle ≠ 0; rw [hth]; norm_num)]
      ext <;> simp [hv2, hvy, ← hz]
    · rw [dragFrictionPhase_slow _ dt s.velocity_x hpos0 hvx10
        (by show s.throttle ≠ 0; rw [hth]; norm_num)]
      have hvxne : s.velocity_x ≠ 0 := ne_of_gt hpos0
      ext
      all_goals try rfl
      · rw [hv2]
        field_simp
        ring
      · simp [hvy]
  rw [hdrag]
  rw [limitPhase_no { s with velocity_x := v2, velocity_y := 0, angular_velocity := 0, tire_squeal_intensity := 0 } s.velocity_x (by
    show ¬ s.velocity_x > s.max_speed
    rw [hms]
    linarith)]
  rw [collisionPhase_on (positionPhase { s with velocity_x := v2, velocity_y := 0, angular_velocity := 0, tire_squeal_intensity := 0 } dt) td (by
    show point_in_track (s.x + v2 * dt, s.y + 0 * dt) td = true
    rw [show s.y + (0:ℝ) * dt = 400 by rw [hy]; ring]
    exact point_in_track_x_axis _ td hx1 hx2)]
  simp only [audioPhase, positionPhase]
  ext <;> simp [hms, htg]

/- ------------------------------------------------------------------ -/
/- C9: rest is preserved                                               -/
/- ------------------------------------------------------------------ -/

/-- C9: a car at rest with idle inputs, placed on the asphalt annulus,
stays exactly where it is with zero velocity under any sequence of
`Car.update` calls. -/
theorem rest_preserved (s : CarState) (td : TrackData) (dts : List ℝ)
    (hvx : s.velocity_x = 0) (hvy : s.velocity_y = 0)
    (hth : s.throttle = 0) (hst : s.steering = 0) (hhb : s.handbrake = false)
    (hpos : point_in_track (s.x, s.y) td = true)
    (hdts : ∀ d ∈ dts, 0 < d) :
    (dts.foldl (fun c d => carUpdate c d td) s).velocity_x = 0 ∧
      (dts.foldl (fun c d => carUpdate c d td) s).velocity_y = 0 ∧
      (dts.foldl (fun c d => carUpdate c d td) s).x = s.x ∧
      (dts.foldl (fun c d => carUpdate c d td) s).y = s.y := by
  induction dts generalizing s with
  | nil => exact ⟨hvx, hvy, rfl, rfl⟩
  | cons d rest ih =>
    simp only [List.foldl_cons]
    have hstep := carUpdate_rest s td d hvx hvy hth hst hpos
    have hx2 : (carUpdate s d td).x = s.x := by rw [hstep]
    have hy2 : (carUpdate s d td).y = s.y := by rw [hstep]
    have h := ih (carUpdate s d td)
      (by rw [hstep]) (by rw [hstep])
      (by rw [hstep]; exact hth) (by rw [hstep]; exact hst) (by rw [hstep]; exact hhb)
      (by rw [hstep]; exact hpos)
      (fun d2 hd2 => hdts d2 (List.mem_cons_of_mem _ hd2))
    exact ⟨h.1, h.2.1, h.2.2.1.trans hx2, h.2.2.2.trans hy2⟩

/-- A second car used as a concrete witness state: at rest on the annulus
with idle inputs. -/
noncomputable def restCar : CarState :=
  mkCar 850 400 0.3 (0, 0, 255) 200 15 2.5 0.92 "AI"

/-- Witness for C9 at a concrete car and a concrete list of time steps. -/
theorem rest_preserved_witness :
    restCar.velocity_x = 0 ∧ restCar.velocity_y = 0 ∧ restCar.throttle = 0 ∧
      restCar.steering = 0 ∧ restCar.handbrake = false ∧
      point_in_track (restCar.x, restCar.y) squareTrack = true ∧
      (∀ d ∈ [(1:ℝ)/60, 1/30], 0 < d) ∧
      ([(1:ℝ)/60, 1/30].foldl (fun c d => carUpdate c d squareTrack) restCar).x =
        restCar.x := by
  have hpos : point_in_track (restCar.x, restCar.y) squareTrack = true :=
    point_in_track_x_axis 850 squareTrack (by norm_num) (by norm_num)
  have hd : ∀ d ∈ [(1:ℝ)/60, 1/30], 0 < d := by
    intro d hdm
    simp [List.mem_cons] at hdm
    rcases hdm with rfl | rfl <;> norm_num
  refine ⟨rfl, rfl, rfl, rfl, rfl, hpos, hd, ?_⟩
  exact (rest_preserved restCar squareTrack [1/60, 1/30]
    rfl rfl rfl rfl rfl hpos hd).2.2.1

/- ------------------------------------------------------------------ -/
/- C10: frame condition of update                                      -/
/- ------------------------------------------------------------------ -/

/-- The fields `Car.update` must not touch: the control inputs and the
fixed tuning and geometry parameters. -/
def sameCarFrame (s t : CarState) : Prop :=
  t.throttle = s.throttle ∧ t.steering = s.steering ∧ t.handbrake = s.handbrake ∧
  t.width = s.width ∧ t.height = s.height ∧ t.max_speed = s.max_speed ∧
  t.acceleration_rate = s.acceleration_rate ∧ t.brake_rate = s.brake_rate ∧
  t.turning_speed = s.turning_speed ∧ t.base_friction = s.base_friction ∧
  t.color = s.color ∧ t.name = s.name

/-- Transitivity of the frame relation. -/
theorem sameCarFrame_trans {a b c : CarState}
    (h1 : sameCarFrame a b) (h2 : sameCarFrame b c) : sameCarFrame a c := by
  obtain ⟨p1, p2, p3, p4, p5, p6, p7, p8, p9, p10, p11, p12⟩ := h1
  obtain ⟨q1, q2, q3, q4, q5, q6, q7, q8, q9, q10, q11, q12⟩ := h2
  exact ⟨q1.trans p1, q2.trans p2, q3.trans p3, q4.trans p4, q5.trans p5,
    q6.trans p6, q7.trans p7, q8.trans p8, q9.trans p9, q10.trans p10,
    q11.trans p11, q12.trans p12⟩

/-- The acceleration section preserves the frame fields. -/
theorem accelPhase_frame (s : CarState) (dt speed0 grip0 : ℝ) :
    sameCarFrame s (accelPhase s dt speed0 grip0) := by
  simp only [accelPhase, sameCarFrame]
  repeat' split
  all_goals simp

/-- The steering section preserves the frame fields. -/
theorem steeringPhase_frame (s : CarState) (dt speed0 grip0 : ℝ) :
    sameCarFrame s (steeringPhase s dt speed0 grip0) := by
  simp only [steeringPhase, sameCarFrame]
  repeat' split
  all_goals simp

/-- The drag and friction section preserves the frame fields. -/
theorem dragFrictionPhase_frame (s : CarState) (dt speed0 : ℝ) :
    sameCarFrame s (dragFrictionPhase s dt speed0) := by
  simp only [dragFrictionPhase, sameCarFrame]
  repeat' split
  all_goals simp

/-- The speed limiter preserves the frame fields. -/
theorem limitPhase_frame (s : CarState) (speed0 : ℝ) :
    sameCarFrame s (limitPhase s speed0) := by
  simp only [limitPhase, sameCarFrame]
  repeat' split
  all_goals simp

/-- Position integration preserves the frame fields. -/
theorem positionPhase_frame (s : CarState) (dt : ℝ) :
    sameCarFrame s (positionPhase s dt) := by
  simp only [positionPhase, sameCarFrame]
  simp

/-- Collision handling preserves the frame fields. -/
theorem collisionPhase_frame (s : CarState) (td : TrackData) :
    sameCarFrame s (collisionPhase s td) := by
  simp only [collisionPhase, sameCarFrame]
  repeat' split
  all_goals simp

/-- The audio section preserves the frame fields. -/
theorem audioPhase_frame (s : CarState) (speed0 : ℝ) :
    sameCarFrame s (audioPhase s speed0) := by
  simp only [audioPhase, sameCarFrame]
  simp

/-- C10: `Car.update` mutates only the pose, velocity state, surface flag
and derived readouts: the control inputs (throttle, steering, handbrake)
and the fixed parameters (width, height, max_speed, acceleration_rate,
brake_rate, turning_speed, base_friction, color, name) are unchanged by
`carUpdate`; `set_input` changes only the inputs, leaving pose, velocity
and parameters alone; and `carReset` is the other operation writing the
inputs, resetting them to idle. -/
theorem update_frame_condition (s : CarState) (dt : ℝ) (td : TrackData)
    (t st : ℝ) (hb : Bool) (x y a : ℝ) :
    sameCarFrame s (carUpdate s dt td) ∧
      (set_input s t st hb).x = s.x ∧ (set_input s t st hb).y = s.y ∧
      (set_input s t st hb).angle = s.angle ∧
      (set_input s t st hb).velocity_x = s.velocity_x ∧
      (set_input s t st hb).velocity_y = s.velocity_y ∧
      (set_input s t st hb).angular_velocity = s.angular_velocity ∧
      (set_input s t st hb).on_track = s.on_track ∧
      (set_input s t st hb).max_speed = s.max_speed ∧
      (set_input s t st hb).width = s.width ∧
      (set_input s t st hb).color = s.color ∧
      (set_input s t st hb).name = s.name ∧
      (carReset s x y a).throttle = 0 ∧ (carReset s x y a).steering = 0 ∧
      (carReset s x y a).handbrake = false := by
  refine ⟨?_, rfl, rfl, rfl, rfl, rfl, rfl, rfl, rfl, rfl, rfl, rfl, rfl, rfl, rfl⟩
  simp only [carUpdate]
  exact sameCarFrame_trans (accelPhase_frame s dt _ _)
    (sameCarFrame_trans (steeringPhase_frame _ dt _ _)
      (sameCarFrame_trans (dragFrictionPhase_frame _ dt _)
        (sameCarFrame_trans (limitPhase_frame _ _)
          (sameCarFrame_trans (positionPhase_frame _ dt)
            (sameCarFrame_trans (collisionPhase_frame _ td)
              (audioPhase_frame _ _))))))

/- ------------------------------------------------------------------ -/
/- Concrete full-throttle scenarios for C2 and C3                      -/
/- ------------------------------------------------------------------ -/

/-- A freshly constructed car on the asphalt annulus, pointed along the
x axis, with full throttle applied. -/
noncomputable def demoCar : CarState :=
  { mkCar 850 400 0 (255, 0, 0) 200 15 2.5 0.92 "Player" with throttle := 1 }

/-- Counterexample to C2: a single `Car.update` from rest at full throttle
with `dt = 20` leaves the car at speed 22572, far above `max_speed = 200`
(i.e. `get_speed_kmh` far above the 72 km/h cap): the limiter checks the
stale start-of-call speed and the low-speed friction factor `1 - 5*dt` is
negative, so nothing caps the result. -/
theorem speed_cap_counterexample :
    point_in_track (demoCar.x, demoCar.y) squareTrack = true ∧
      carSpeed (carUpdate demoCar 20 squareTrack) > demoCar.max_speed ∧
      get_speed_kmh (carUpdate demoCar 20 squareTrack) > 72 := by
  have hpos : point_in_track (demoCar.x, demoCar.y) squareTrack = true :=
    point_in_track_x_axis 850 squareTrack (by norm_num) (by norm_num)
  have hsp : carSpeed demoCar = 0 :=
    (carSpeed_straight demoCar rfl (le_of_eq rfl)).trans rfl
  have hupd : carUpdate demoCar 20 squareTrack =
      audioPhase
        { positionPhase
            { demoCar with
              velocity_x := (demoCar.velocity_x + 11.4 * 20) * (1 - 5 * 20)
              velocity_y := demoCar.velocity_y * (1 - 5 * 20)
              angular_velocity := 0
              tire_squeal_intensity := 0 } 20 with
          on_track := false } 0 := by
    simp only [carUpdate, hsp]
    rw [show (if demoCar.on_track = true then demoCar.tire_grip
      else demoCar.tire_grip * demoCar.off_track_grip_multiplier) = 0.95 from rfl]
    rw [accelPhase_full_throttle demoCar 20 0 0.95 rfl rfl
      (by show |(0:ℝ)| < 5; norm_num) rfl rfl rfl rfl]
    rw [steeringPhase_idle { demoCar with velocity_x := demoCar.velocity_x + 11.4 * 20 }
      20 0 0.95 rfl]
    rw [dragFrictionPhase_speed0_zero
      { demoCar with
        velocity_x := demoCar.velocity_x + 11.4 * 20
        angular_velocity := 0
        tire_squeal_intensity := 0 }
      20 (by show (1:ℝ) ≠ 0; norm_num)]
    rw [limitPhase_no
      { demoCar with
        velocity_x := (demoCar.velocity_x + 11.4 * 20) * (1 - 5 * 20)
        velocity_y := demoCar.velocity_y * (1 - 5 * 20)
        angular_velocity := 0
        tire_squeal_intensity := 0 }
      0 (by show ¬ (0:ℝ) > 200; norm_num)]
    rw [collisionPhase_far_left
      (positionPhase
        { demoCar with
          velocity_x := (demoCar.velocity_x + 11.4 * 20) * (1 - 5 * 20)
          velocity_y := demoCar.velocity_y * (1 - 5 * 20)
          angular_velocity := 0
          tire_squeal_intensity := 0 } 20) squareTrack
      (by show (400:ℝ) + 0 * (1 - 5 * 20) * 20 = 400; norm_num)
      (by show (850:ℝ) + (0 + 11.4 * 20) * (1 - 5 * 20) * 20 ≤ 265; norm_num)]
  have hvx : (carUpdate demoCar 20 squareTrack).velocity_x =
      ((0:ℝ) + 11.4 * 20) * (1 - 5 * 20) := by
    rw [hupd]
    rfl
  have hvy : (carUpdate demoCar 20 squareTrack).velocity_y =
      (0:ℝ) * (1 - 5 * 20) := by
    rw [hupd]
    rfl
  have hcs : carSpeed (carUpdate demoCar 20 squareTrack) = 22572 := by
    simp only [carSpeed]
    rw [hvx, hvy]
    rw [show ((0:ℝ) + 11.4 * 20) * (1 - 5 * 20) * (((0:ℝ) + 11.4 * 20) * (1 - 5 * 20)) +
        (0:ℝ) * (1 - 5 * 20) * ((0:ℝ) * (1 - 5 * 20)) = 22572 ^ 2 by norm_num,
      Real.sqrt_sq (by norm_num)]
  refine ⟨hpos, ?_, ?_⟩
  · rw [hcs]
    show (22572:ℝ) > 200
    norm_num
  · simp only [get_speed_kmh]
    rw [hcs]
    norm_num

/- ------------------------------------------------------------------ -/
/- C3: substep integration                                             -/
/- ------------------------------------------------------------------ -/

/-- C3 as amended: `Car.update` integrates the whole `dt` in a single pass;
it coincides with the spec's substepped scheme exactly when the substep
count is 1, i.e. when `dt ≤ 1/240`. -/
theorem substep_corrected (s : CarState) (dt : ℝ) (td : TrackData)
    (h1 : 0 < dt) (h2 : dt ≤ 1 / 240) :
    updateSubstepped s dt td = carUpdate s dt td := by
  have hc : ⌈dt / (1 / 240)⌉₊ = 1 := by
    have hle : ⌈dt / (1 / 240)⌉₊ ≤ 1 := Nat.ceil_le.2 (by
      rw [show dt / ((1:ℝ) / 240) = dt * 240 by ring]
      push_cast
      linarith)
    have hge : 1 ≤ ⌈dt / (1 / 240)⌉₊ :=
      Nat.one_le_ceil_iff.2 (div_pos h1 (by norm_num))
    omega
  simp only [updateSubstepped, hc]
  norm_num [Function.iterate_one]

/-- Witness for the amended C3 at a concrete car and the largest single
substep. -/
theorem substep_corrected_witness :
    (0:ℝ) < 1 / 240 ∧ (1:ℝ) / 240 ≤ 1 / 240 ∧
      updateSubstepped restCar (1 / 240) squareTrack =
        carUpdate restCar (1 / 240) squareTrack :=
  ⟨by norm_num, le_refl _,
    substep_corrected restCar (1 / 240) squareTrack (by norm_num) (le_refl _)⟩

/-- The x velocity `Car.update` produces from the demo car over a single
pass with `dt = 1/120`. -/
noncomputable def stepVelA : ℝ :=
  (demoCar.velocity_x + 11.4 * (1 / 120)) *
    (1 - demoCar.drag_coefficient * demoCar.velocity_x * (1 / 120)) * (1 - 5 * (1 / 120))

/-- The x velocity after the first of two substeps with `dt = 1/240`. -/
noncomputable def stepVelB1 : ℝ :=
  (demoCar.velocity_x + 11.4 * (1 / 240)) *
    (1 - demoCar.drag_coefficient * demoCar.velocity_x * (1 / 240)) * (1 - 5 * (1 / 240))

/-- The x velocity after the second of two substeps with `dt = 1/240`. -/
noncomputable def stepVelB2 : ℝ :=
  (stepVelB1 + 11.4 * (1 / 240)) *
    (1 - demoCar.drag_coefficient * stepVelB1 * (1 / 240)) * (1 - 5 * (1 / 240))

/-- Counterexample to C3: on the full-throttle demo car with `dt = 1/120`,
the substepped scheme the spec describes (two full physics passes of
`1/240` each) produces a different state than the source `Car.update`,
which integrates the whole `dt` in one pass — so `Car.update` performs no
substepping. -/
theorem substep_counterexample :
    updateSubstepped demoCar (1 / 120) squareTrack ≠
      carUpdate demoCar (1 / 120) squareTrack := by
  have hA : carUpdate demoCar (1 / 120) squareTrack = _ :=
    carUpdate_straight demoCar squareTrack (1 / 120) stepVelA
      rfl rfl (le_of_eq rfl) (by show (0:ℝ) < 10; norm_num) rfl rfl
      (by show |(0:ℝ)| < 5; norm_num) rfl rfl rfl rfl rfl rfl rfl rfl
      (by show (180:ℝ) < demoCar.x + stepVelA * (1 / 120) - 600
          norm_num [stepVelA, demoCar, mkCar])
      (by show demoCar.x + stepVelA * (1 / 120) - 600 < 320
          norm_num [stepVelA, demoCar, mkCar])
  have hS1 : carUpdate demoCar (1 / 240) squareTrack = _ :=
    carUpdate_straight demoCar squareTrack (1 / 240) stepVelB1
      rfl rfl (le_of_eq rfl) (by show (0:ℝ) < 10; norm_num) rfl rfl
      (by show |(0:ℝ)| < 5; norm_num) rfl rfl rfl rfl rfl rfl rfl rfl
      (by show (180:ℝ) < demoCar.x + stepVelB1 * (1 / 240) - 600
          norm_num [stepVelB1, demoCar, mkCar])
      (by show demoCar.x + stepVelB1 * (1 / 240) - 600 < 320
          norm_num [stepVelB1, demoCar, mkCar])
  have hS2 : carUpdate
      { demoCar with
        velocity_x := stepVelB1
        velocity_y := 0
        angular_velocity := 0
        tire_squeal_intensity := 0
        x := demoCar.x + stepVelB1 * (1 / 240)
        on_track := true
        speed_for_audio := demoCar.velocity_x
        engine_sound_pitch := 0.8 + demoCar.velocity_x / 200 * 0.6 }
      (1 / 240) squareTrack = _ :=
    carUpdate_straight
      { demoCar with
        velocity_x := stepVelB1
        velocity_y := 0
        angular_velocity := 0
        tire_squeal_intensity := 0
        x := demoCar.x + stepVelB1 * (1 / 240)
        on_track := true
        speed_for_audio := demoCar.velocity_x
        engine_sound_pitch := 0.8 + demoCar.velocity_x / 200 * 0.6 }
      squareTrack (1 / 240) stepVelB2
      rfl rfl
      (by show (0:ℝ) ≤ stepVelB1; norm_num [stepVelB1, demoCar, mkCar])
      (by show stepVelB1 < 10; norm_num [stepVelB1, demoCar, mkCar])
      rfl rfl (by show |(0:ℝ)| < 5; norm_num) rfl rfl rfl rfl rfl rfl rfl rfl
      (by show (180:ℝ) <
            demoCar.x + stepVelB1 * (1 / 240) + stepVelB2 * (1 / 240) - 600
          norm_num [stepVelB1, stepVelB2, demoCar, mkCar])
      (by show demoCar.x + stepVelB1 * (1 / 240) + stepVelB2 * (1 / 240) - 600 < 320
          norm_num [stepVelB1, stepVelB2, demoCar, mkCar])
  have hsteps : (max 1 ⌈(1:ℝ) / 120 / (1 / 240)⌉₊) = 2 := by
    rw [show (1:ℝ) / 120 / (1 / 240) = 2 by norm_num, Nat.ceil_ofNat]
    decide
  have hB : updateSubstepped demoCar (1 / 120) squareTrack =
      carUpdate (carUpdate demoCar (1 / 240) squareTrack) (1 / 240) squareTrack := by
    simp only [updateSubstepped, hsteps]
    rw [show (1:ℝ) / 120 / ((2:ℕ):ℝ) = 1 / 240 by norm_num]
    rw [show (2:ℕ) = 1 + 1 from rfl, Function.iterate_succ_apply,
      Function.iterate_one]
  intro hEq
  have hv := congrArg CarState.velocity_x hEq
  rw [hB, hS1, hS2, hA] at hv
  have hv2 : stepVelB2 = stepVelA := hv
  rw [stepVelB2, stepVelB1, stepVelA] at hv2
  norm_num [demoCar, mkCar] at hv2

end RLRacing
